import Mathlib

/-!
# Verification of the couchbase-lite-js documentation snippet corpus

This file embeds, from the repository sources, the small pieces of executable
logic that the snippets define themselves (the custom pull conflict resolver,
the push replication filter, the replication error handler, the
`updateTaskList` DOM helper, and the `TaskManager` live-query lifecycle
class), together with a syntactic model of the tagged snippets (variables
bound and read, SDK calls and whether they are awaited, listener
registration and removal), and proves or refutes the specification's claims
about them.
-/

/-- A document as consulted by the snippet-defined functions.  JS documents
are open objects; we model exactly the fields the embedded functions read:
`updatedAt` (read by the pull conflict resolver, absent field modelled as
`none`), `completed` (read by the push filter, `none` when the field is
absent or not a boolean), and `title` (read by `updateTaskList`). -/
structure CBLDocument where
  updatedAt : Option Int := none
  completed : Option Bool := none
  title : String := ""
deriving DecidableEq

/-- Replication filter flags (`flags` argument of push/pull filters). -/
structure ReplicationFlags where
  deleted : Bool
deriving DecidableEq

/-- The custom pull conflict resolver of the `conflict-resolver` snippet
(`replication_snippets.js` lines 412-432):

```js
conflictResolver: async (documentID, local, remote) => {
    if (!local) { return remote; }
    if (!remote) { return local; }
    const localTime = local.updatedAt || 0;
    const remoteTime = remote.updatedAt || 0;
    if (remoteTime > localTime) { return remote; } else { return local; }
}
```

An absent (`undefined`/deleted) document is `none`; `x.updatedAt || 0`
yields `0` both when the field is absent and when it is `0`, which
`Option.getD 0` reproduces. -/
def conflictResolver (documentID : String) (localDoc remoteDoc : Option CBLDocument) :
    Option CBLDocument :=
  match localDoc with
  | none => remoteDoc
  | some l =>
    match remoteDoc with
    | none => some l
    | some r =>
      let localTime := l.updatedAt.getD 0
      let remoteTime := r.updatedAt.getD 0
      if remoteTime > localTime then some r else some l

/-- The push filter of the `push-filter` snippet
(`replication_snippets.js` lines 157-165):

```js
filter: (doc, flags) => {
    if (flags.deleted) { return false; }
    return doc.completed === true;
}
```

`doc.completed === true` is a strict equality: it holds only when the field
is present and is the boolean `true`. -/
def pushFilter (doc : CBLDocument) (flags : ReplicationFlags) : Bool :=
  if flags.deleted then false
  else doc.completed == some true

/-- C3: the pull conflict resolver returns `remote` when `local` is absent,
`local` when `remote` is absent, otherwise `remote` exactly when
`remote.updatedAt` (0 when missing) is strictly greater than
`local.updatedAt` (0 when missing) and `local` otherwise; it always returns
one of its two inputs, and on equal timestamps it returns `local`. -/
theorem conflictResolver_spec (id : String) (l r : CBLDocument) :
    (∀ rem : Option CBLDocument, conflictResolver id none rem = rem)
    ∧ conflictResolver id (some l) none = some l
    ∧ conflictResolver id (some l) (some r) =
        (if r.updatedAt.getD 0 > l.updatedAt.getD 0 then some r else some l)
    ∧ (∀ lo ro : Option CBLDocument,
        conflictResolver id lo ro = lo ∨ conflictResolver id lo ro = ro)
    ∧ (l.updatedAt.getD 0 = r.updatedAt.getD 0 →
        conflictResolver id (some l) (some r) = some l)
    := by
  refine ⟨fun rem => rfl, rfl, rfl, ?_, ?_⟩
  · intro lo ro
    cases lo with
    | none => right; rfl
    | some l0 =>
      cases ro with
      | none => left; rfl
      | some r0 =>
        simp only [conflictResolver]
        by_cases h : r0.updatedAt.getD 0 > l0.updatedAt.getD 0
        · right; simp [h]
        · left; simp [h]
  · intro h
    simp only [conflictResolver]
    rw [h]
    simp

/-- Witness for `conflictResolver_spec`: concrete documents with equal
timestamps, on which the resolver keeps the local revision. -/
theorem conflictResolver_spec_witness :
    conflictResolver "doc-1" (some { updatedAt := some 5 })
      (some { updatedAt := some 5, completed := some true }) =
      some { updatedAt := some 5 } :=
  (conflictResolver_spec "doc-1" { updatedAt := some 5 }
    { updatedAt := some 5, completed := some true }).2.2.2.2 rfl

/-- C9: the push filter rejects every document whose flags mark it deleted,
and accepts a non-deleted document exactly when its `completed` field is the
boolean `true`; hence deleted documents and incomplete tasks are never
pushed under this configuration. -/
theorem pushFilter_spec (d : CBLDocument) :
    pushFilter d { deleted := true } = false
    ∧ pushFilter d { deleted := false } = (d.completed == some true)
    ∧ pushFilter { d with completed := some false } { deleted := false } = false
    ∧ pushFilter { d with completed := none } { deleted := false } = false := by
  refine ⟨rfl, rfl, ?_, ?_⟩ <;> simp [pushFilter]

/-! ## The replication error handler (`error-handling` snippet,
`replication_snippets.js` lines 294-339) -/

/-- Console output level: `console.log` or `console.error`. -/
inductive ConsoleLevel where
  | log
  | error
deriving DecidableEq

/-- One console call emitted by a snippet: its level and message. -/
structure ConsoleEvent where
  level : ConsoleLevel
  message : String
deriving DecidableEq

/-- The `error` field of a replicator status (`status.error`). -/
structure ReplicatorErrorInfo where
  message : String
  code : Option Int
deriving DecidableEq

/-- A replicator status as consumed by `onStatusChange` handlers. -/
structure ReplicatorStatus where
  status : String
  error : Option ReplicatorErrorInfo
deriving DecidableEq

/-- The `switch (error.code)` of the `error-handling` snippet, as the console
event each code produces (`replication_snippets.js` lines 304-328). -/
def errorCodeSwitch (code : Int) : ConsoleEvent :=
  if code = 401 then ⟨.error, "Unauthorized - check credentials"⟩
  else if code = 404 then ⟨.error, "Database not found on server"⟩
  else if code = 408 then ⟨.log, "Request timeout - will retry"⟩
  else if code = 429 then ⟨.log, "Too many requests - will retry"⟩
  else if code = 500 ∨ code = 502 ∨ code = 503 ∨ code = 504 then
    ⟨.log, "Server error - will retry"⟩
  else if code = 1001 then ⟨.log, "DNS resolution error - will retry"⟩
  else ⟨.error, "Unexpected error code: " ++ toString code⟩

/-- The `onStatusChange` handler of the `error-handling` snippet, as the list
of console events it emits for a given status.  The handler does nothing
unless `status.error` is set; the switch runs only under `if (error.code)`,
which in JS is false when the code is absent or `0`. -/
def errorHandlingOnStatusChange (status : ReplicatorStatus) : List ConsoleEvent :=
  match status.error with
  | none => []
  | some err =>
    ⟨.error, "Replication error: " ++ err.message⟩ ::
      ((match err.code with
        | none => []
        | some code => if code = 0 then [] else [errorCodeSwitch code]) ++
       (if status.status = "stopped" then
          [⟨.log, "Replicator stopped - permanent error"⟩]
        else if status.status = "offline" then
          [⟨.log, "Replicator offline - will retry connection"⟩]
        else []))

/-- The two non-retry error reports of the `error-handling` switch. -/
def nonRetryReports : List ConsoleEvent :=
  [⟨.error, "Unauthorized - check credentials"⟩,
   ⟨.error, "Database not found on server"⟩]

/-- The four will-retry reports of the `error-handling` switch. -/
def willRetryReports : List ConsoleEvent :=
  [⟨.log, "Request timeout - will retry"⟩,
   ⟨.log, "Too many requests - will retry"⟩,
   ⟨.log, "Server error - will retry"⟩,
   ⟨.log, "DNS resolution error - will retry"⟩]

/-- C4: the error handler emits nothing when `status.error` is unset, and the
switch maps 401 and 404 to a non-retry error report, 408, 429, 500, 502,
503, 504 and 1001 to a will-retry report, and every other code to the
default unexpected-error report (each code to exactly one outcome, the
switch being a function). -/
theorem errorHandling_spec (st : ReplicatorStatus) (c : Int) :
    (st.error = none → errorHandlingOnStatusChange st = [])
    ∧ ((c = 401 ∨ c = 404) → errorCodeSwitch c ∈ nonRetryReports)
    ∧ (c ∈ ([408, 429, 500, 502, 503, 504, 1001] : List Int) →
        errorCodeSwitch c ∈ willRetryReports)
    ∧ (c ∉ ([401, 404, 408, 429, 500, 502, 503, 504, 1001] : List Int) →
        errorCodeSwitch c = ⟨.error, "Unexpected error code: " ++ toString c⟩) := by
  refine ⟨?_, ?_, ?_, ?_⟩
  · intro h
    simp [errorHandlingOnStatusChange, h]
  · rintro (rfl | rfl) <;> simp [errorCodeSwitch, nonRetryReports, willRetryReports]
  · intro h
    fin_cases h <;> simp [errorCodeSwitch, nonRetryReports, willRetryReports]
  · intro h
    simp only [List.mem_cons, List.not_mem_nil, or_false, not_or] at h
    obtain ⟨h1, h2, h3, h4, h5, h6, h7, h8, h9⟩ := h
    simp [errorCodeSwitch, h1, h2, h3, h4, h5, h6, h7, h8, h9]

/-- Witness for `errorHandling_spec`: an error-free status produces no
events; 401 is a non-retry report, 503 a will-retry report, and 999 the
default unexpected-error report. -/
theorem errorHandling_spec_witness :
    errorHandlingOnStatusChange { status := "idle", error := none } = []
    ∧ errorCodeSwitch 401 ∈ nonRetryReports
    ∧ errorCodeSwitch 503 ∈ willRetryReports
    ∧ errorCodeSwitch 999 =
        ⟨.error, "Unexpected error code: " ++ toString (999 : Int)⟩ :=
  ⟨(errorHandling_spec { status := "idle", error := none } 0).1 rfl,
   (errorHandling_spec { status := "idle", error := none } 401).2.1 (Or.inl rfl),
   (errorHandling_spec { status := "idle", error := none } 503).2.2.1 (by decide),
   (errorHandling_spec { status := "idle", error := none } 999).2.2.2 (by decide)⟩

/-! ## C1: are all snippet-defined functions thin call-throughs? -/

/-- A push/pull filter is a thin call-through (computes nothing from
document data) iff its verdict never depends on the document argument. -/
def FilterDocIndependent (f : CBLDocument → ReplicationFlags → Bool) : Prop :=
  ∀ d d' : CBLDocument, ∀ fl : ReplicationFlags, f d fl = f d' fl

/-- A conflict resolver is a thin call-through iff whether it selects the
remote revision never depends on the content of the two documents. -/
def ResolverDecisionIndependent
    (r : String → Option CBLDocument → Option CBLDocument → Option CBLDocument) :
    Prop :=
  ∀ id : String, ∀ l l' rm rm' : CBLDocument,
    (r id (some l) (some rm) = some rm) ↔ (r id (some l') (some rm') = some rm')

/-- C1 counterexample: it is not the case that every snippet-defined function
is a thin call-through — the push filter's verdict depends on the document's
`completed` field (true at `completed = true`, false at `completed` absent,
both with non-deleted flags). -/
theorem thinCallThrough_counterexample :
    ¬ (FilterDocIndependent pushFilter
       ∧ ResolverDecisionIndependent conflictResolver) := by
  rintro ⟨h, -⟩
  have hc := h { completed := some true } { completed := none } { deleted := false }
  simp [pushFilter] at hc

/-- C1 amended: not every function defined in the snippet files is a thin
call-through: the custom pull conflict resolver computes its choice between
local and remote from the documents' `updatedAt` data, and the push filter
computes its verdict from the document's `completed` field. -/
theorem thinCallThrough_amended :
    ¬ ResolverDecisionIndependent conflictResolver
    ∧ ¬ FilterDocIndependent pushFilter := by
  constructor
  · intro h
    have hc := h "d" { updatedAt := some 0 } { updatedAt := some 1 }
      { updatedAt := some 1 } { updatedAt := some 0 }
    simp [conflictResolver] at hc
  · intro h
    have hc := h { completed := some true } { completed := some false }
      { deleted := false }
    simp [pushFilter] at hc

/-! ## Syntactic model of the tagged snippets

Each tagged snippet is transcribed statement by statement, recording the
variables it binds (`const`/`let`), the snippet-level variables it reads
(ambient globals such as `console`, `document` and hoisted helper functions
are omitted), the SDK method call it makes, whether that call is awaited,
and the keys of any object literal it binds (used to transcribe
configuration objects).  Loop bodies are transcribed as one straight-line
pass. -/

/-- One SDK method call appearing in a snippet statement: the receiver
expression as written, the SDK type of the receiver, the method name, and
whether the call is awaited. -/
structure SdkCall where
  recv : String
  recvType : String
  method : String
  awaited : Bool
deriving DecidableEq

/-- One statement of a snippet. -/
structure SnippetStmt where
  binds : List String := []
  reads : List String := []
  call : Option SdkCall := none
  objKeys : List String := []
deriving DecidableEq

/-- A tagged snippet: source file, tag name, statements. -/
structure Snippet where
  file : String
  tag : String
  stmts : List SnippetStmt
deriving DecidableEq

/-- The `open-database` snippet (`code_snippets.js` lines 38-51). -/
def openDatabaseSnippet : Snippet :=
  { file := "code_snippets.js", tag := "open-database",
    stmts :=
      [ { binds := ["config"], objKeys := ["name", "version", "collections"] },
        { binds := ["database"], reads := ["Database", "config"],
          call := some { recv := "Database", recvType := "Database",
                         method := "open", awaited := true } },
        { reads := ["database"] } ] }

/-- The `open-database-encrypted` snippet (`code_snippets.js` lines 71-85). -/
def openDatabaseEncryptedSnippet : Snippet :=
  { file := "code_snippets.js", tag := "open-database-encrypted",
    stmts :=
      [ { binds := ["encryptedConfig"],
          objKeys := ["name", "version", "password", "collections"] },
        { binds := ["secureDb"], reads := ["Database", "encryptedConfig"],
          call := some { recv := "Database", recvType := "Database",
                         method := "open", awaited := true } } ] }

/-- The `close-database` snippet (`code_snippets.js` lines 87-91). -/
def closeDatabaseSnippet : Snippet :=
  { file := "code_snippets.js", tag := "close-database",
    stmts :=
      [ { reads := ["database"],
          call := some { recv := "database", recvType := "Database",
                         method := "close", awaited := true } },
        { } ] }

/-- The `create-document` snippet (`code_snippets.js` lines 222-233). -/
def createDocumentSnippet : Snippet :=
  { file := "code_snippets.js", tag := "create-document",
    stmts :=
      [ { binds := ["task"],
          objKeys := ["type", "title", "completed", "createdAt"] },
        { binds := ["savedDoc"], reads := ["tasks", "task"],
          call := some { recv := "tasks", recvType := "Collection",
                         method := "save", awaited := true } },
        { reads := ["savedDoc"] } ] }

/-- The `get-document` snippet (`code_snippets.js` lines 248-256). -/
def getDocumentSnippet : Snippet :=
  { file := "code_snippets.js", tag := "get-document",
    stmts :=
      [ { binds := ["doc"], reads := ["tasks", "savedDoc"],
          call := some { recv := "tasks", recvType := "Collection",
                         method := "getDocument", awaited := true } },
        { reads := ["doc"] } ] }

/-- The `create-query` snippet (`code_snippets.js` lines 302-310). -/
def createQuerySnippet : Snippet :=
  { file := "code_snippets.js", tag := "create-query",
    stmts :=
      [ { binds := ["query"], reads := ["database"],
          call := some { recv := "database", recvType := "Database",
                         method := "createQuery", awaited := false } } ] }

/-- The `execute-query` snippet (`code_snippets.js` lines 312-322). -/
def executeQuerySnippet : Snippet :=
  { file := "code_snippets.js", tag := "execute-query",
    stmts :=
      [ { binds := ["results"], reads := ["query"],
          call := some { recv := "query", recvType := "Query",
                         method := "execute", awaited := true } },
        { binds := ["row", "task"], reads := ["results"] },
        { reads := ["results"] } ] }

/-- The `create-live-query` snippet (`code_snippets.js` lines 351-370). -/
def createLiveQuerySnippet : Snippet :=
  { file := "code_snippets.js", tag := "create-live-query",
    stmts :=
      [ { binds := ["liveQuery"], reads := ["database"],
          call := some { recv := "database", recvType := "Database",
                         method := "createQuery", awaited := false } },
        { reads := ["liveQuery"],
          call := some { recv := "liveQuery", recvType := "Query",
                         method := "addChangeListener", awaited := false } },
        { reads := ["liveQuery"],
          call := some { recv := "liveQuery", recvType := "Query",
                         method := "start", awaited := false } } ] }

/-- The `stop-live-query` snippet (`code_snippets.js` lines 372-375). -/
def stopLiveQuerySnippet : Snippet :=
  { file := "code_snippets.js", tag := "stop-live-query",
    stmts :=
      [ { reads := ["liveQuery"],
          call := some { recv := "liveQuery", recvType := "Query",
                         method := "stop", awaited := false } } ] }

/-- The `create-replicator` snippet (`code_snippets.js` lines 410-423). -/
def createReplicatorSnippet : Snippet :=
  { file := "code_snippets.js", tag := "create-replicator",
    stmts :=
      [ { binds := ["replicatorConfig"], reads := ["database"],
          objKeys := ["database", "url", "collections", "continuous"] },
        { binds := ["replicator"], reads := ["Replicator", "replicatorConfig"],
          call := some { recv := "Replicator", recvType := "Replicator",
                         method := "constructor", awaited := false } } ] }

/-- The `start-replication` snippet (`code_snippets.js` lines 443-447). -/
def startReplicationSnippet : Snippet :=
  { file := "code_snippets.js", tag := "start-replication",
    stmts :=
      [ { reads := ["replicator"],
          call := some { recv := "replicator", recvType := "Replicator",
                         method := "start", awaited := true } },
        { } ] }

/-- The `stop-replication` snippet (`code_snippets.js` lines 449-453):
`await replicator.stop()`. -/
def stopReplicationSnippet : Snippet :=
  { file := "code_snippets.js", tag := "stop-replication",
    stmts :=
      [ { reads := ["replicator"],
          call := some { recv := "replicator", recvType := "Replicator",
                         method := "stop", awaited := true } },
        { } ] }

/-- The `stop-replicator` snippet (`replication_snippets.js` lines 288-292):
`replicator.stop()` with no `await`. -/
def stopReplicatorSnippet : Snippet :=
  { file := "replication_snippets.js", tag := "stop-replicator",
    stmts :=
      [ { reads := ["replicator"],
          call := some { recv := "replicator", recvType := "Replicator",
                         method := "stop", awaited := false } },
        { } ] }

/-- The `collection-change-listener` snippet (`code_snippets.js` lines
490-502). -/
def collectionChangeListenerSnippet : Snippet :=
  { file := "code_snippets.js", tag := "collection-change-listener",
    stmts :=
      [ { binds := ["token"], reads := ["tasks"],
          call := some { recv := "tasks", recvType := "Collection",
                         method := "addChangeListener", awaited := false } },
        { reads := ["tasks", "token"],
          call := some { recv := "tasks", recvType := "Collection",
                         method := "removeChangeListener", awaited := false } } ] }

/-- The `document-change-listener` snippet (`code_snippets.js` lines
504-512). -/
def documentChangeListenerSnippet : Snippet :=
  { file := "code_snippets.js", tag := "document-change-listener",
    stmts :=
      [ { binds := ["docToken"], reads := ["tasks", "savedDoc"],
          call := some { recv := "tasks", recvType := "Collection",
                         method := "addDocumentChangeListener", awaited := false } },
        { reads := ["tasks", "docToken"],
          call := some { recv := "tasks", recvType := "Collection",
                         method := "removeDocumentChangeListener",
                         awaited := false } } ] }

/-- The `remove-listener` snippet (`queries.ts` lines 42-51). -/
def removeListenerSnippet : Snippet :=
  { file := "queries.ts", tag := "remove-listener",
    stmts :=
      [ { binds := ["query"], reads := ["database"],
          call := some { recv := "database", recvType := "Database",
                         method := "createQuery", awaited := false } },
        { binds := ["token"], reads := ["query"],
          call := some { recv := "query", recvType := "Query",
                         method := "addChangeListener", awaited := false } },
        { reads := ["token"],
          call := some { recv := "token", recvType := "ListenerToken",
                         method := "remove", awaited := false } },
        { } ] }

/-- The `typescript-live-query` snippet (`queries.ts` lines 86-110): binds a
listener token but never removes it. -/
def typescriptLiveQuerySnippet : Snippet :=
  { file := "queries.ts", tag := "typescript-live-query",
    stmts :=
      [ { binds := ["query"], reads := ["database"],
          call := some { recv := "database", recvType := "Database",
                         method := "createQuery", awaited := false } },
        { binds := ["token"], reads := ["query"],
          call := some { recv := "query", recvType := "Query",
                         method := "addChangeListener", awaited := false } } ] }

/-- The `blob-in-results` snippet (`code_snippets.js` lines 2339-2360). -/
def blobInResultsSnippet : Snippet :=
  { file := "code_snippets.js", tag := "blob-in-results",
    stmts :=
      [ { binds := ["query"], reads := ["database"],
          call := some { recv := "database", recvType := "Database",
                         method := "createQuery", awaited := false } },
        { binds := ["results"], reads := ["query"],
          call := some { recv := "query", recvType := "Query",
                         method := "execute", awaited := true } },
        { binds := ["row"], reads := ["results"] },
        { binds := ["blob"], reads := ["row"] },
        { binds := ["url"], reads := ["blob"],
          call := some { recv := "blob", recvType := "Blob",
                         method := "getURL", awaited := false } },
        { binds := ["data"], reads := ["blob"],
          call := some { recv := "blob", recvType := "Blob",
                         method := "getArrayBuffer", awaited := true } },
        { reads := ["row", "blob"] } ] }

/-- The `close-database` snippet of the second unit-scoped copy of
`code_snippets.js` (lines 2563-2567): `database.close();` with no `await`. -/
def closeDatabaseUnawaitedSnippet : Snippet :=
  { file := "code_snippets.js (second copy)", tag := "close-database",
    stmts :=
      [ { reads := ["database"],
          call := some { recv := "database", recvType := "Database",
                         method := "close", awaited := false } },
        { } ] }

/-- The `delete-database` snippet of the second copy (lines 2578-2583):
`database.close();` unawaited, then `await Database.delete('myapp')`. -/
def deleteDatabaseSnippet : Snippet :=
  { file := "code_snippets.js (second copy)", tag := "delete-database",
    stmts :=
      [ { reads := ["database"],
          call := some { recv := "database", recvType := "Database",
                         method := "close", awaited := false } },
        { reads := ["Database"],
          call := some { recv := "Database", recvType := "Database",
                         method := "delete", awaited := true } },
        { } ] }

/-- The `add-collection` snippet of the second copy (lines 2708-2723):
`database.close();` unawaited, then an awaited reopen. -/
def addCollectionSnippet : Snippet :=
  { file := "code_snippets.js (second copy)", tag := "add-collection",
    stmts :=
      [ { reads := ["database"],
          call := some { recv := "database", recvType := "Database",
                         method := "close", awaited := false } },
        { binds := ["updatedConfig"],
          objKeys := ["name", "version", "collections"] },
        { binds := ["updatedDb"], reads := ["Database", "updatedConfig"],
          call := some { recv := "Database", recvType := "Database",
                         method := "open", awaited := true } } ] }

/-- The `modify-indexes` snippet (`code_snippets.js` lines 3335-3354):
`database.close();` unawaited, then an awaited reopen with new indexes. -/
def modifyIndexesSnippet : Snippet :=
  { file := "code_snippets.js", tag := "modify-indexes",
    stmts :=
      [ { reads := ["database"],
          call := some { recv := "database", recvType := "Database",
                         method := "close", awaited := false } },
        { binds := ["updatedConfig"],
          objKeys := ["name", "version", "collections"] },
        { binds := ["updatedDb"], reads := ["Database", "updatedConfig"],
          call := some { recv := "Database", recvType := "Database",
                         method := "open", awaited := true } } ] }

/-- The `index-migration` snippet (`code_snippets.js` lines 3644-3683), the
body of `migrateIndexes` flattened: `currentDb.close();` is unawaited. -/
def indexMigrationSnippet : Snippet :=
  { file := "code_snippets.js", tag := "index-migration",
    stmts :=
      [ { binds := ["currentDb"], reads := ["Database"],
          call := some { recv := "Database", recvType := "Database",
                         method := "open", awaited := true } },
        { reads := ["currentDb"] },
        { reads := ["currentDb"],
          call := some { recv := "currentDb", recvType := "Database",
                         method := "close", awaited := false } },
        { binds := ["migratedDb"], reads := ["Database"],
          call := some { recv := "Database", recvType := "Database",
                         method := "open", awaited := true } },
        { reads := ["migratedDb"] } ] }

/-- The `interrupt-query` snippet (`code_snippets.js` lines 2314-2337): the
`execute` call is not awaited at its call site (its promise is stored in
`executePromise` and awaited later in the snippet, after the interrupting
timeout is set up). -/
def interruptQuerySnippet : Snippet :=
  { file := "code_snippets.js", tag := "interrupt-query",
    stmts :=
      [ { binds := ["query"], reads := ["database"],
          call := some { recv := "database", recvType := "Database",
                         method := "createQuery", awaited := false } },
        { binds := ["executePromise"], reads := ["query"],
          call := some { recv := "query", recvType := "Query",
                         method := "execute", awaited := false } },
        { reads := ["query"],
          call := some { recv := "query", recvType := "Query",
                         method := "interrupt", awaited := false } },
        { reads := ["executePromise"] } ] }

/-- The `live-query` snippet (`queries.ts` lines 8-34): binds a listener
token; the `token.remove()` at line 36 lies outside the tag. -/
def liveQuerySnippet : Snippet :=
  { file := "queries.ts", tag := "live-query",
    stmts :=
      [ { binds := ["query"], reads := ["database"],
          call := some { recv := "database", recvType := "Database",
                         method := "createQuery", awaited := false } },
        { binds := ["token"], reads := ["query"],
          call := some { recv := "query", recvType := "Query",
                         method := "addChangeListener", awaited := false } } ] }

/-- The `live-query-errors` snippet (`queries.ts` lines 116-137): registers
two change listeners, discarding both tokens, and removes neither. -/
def liveQueryErrorsSnippet : Snippet :=
  { file := "queries.ts", tag := "live-query-errors",
    stmts :=
      [ { binds := ["query"], reads := ["database"],
          call := some { recv := "database", recvType := "Database",
                         method := "createQuery", awaited := false } },
        { reads := ["query"],
          call := some { recv := "query", recvType := "Query",
                         method := "addChangeListener", awaited := false } },
        { reads := ["query"],
          call := some { recv := "query", recvType := "Query",
                         method := "addChangeListener", awaited := false } } ] }

/-- The `live-query-parameters` snippet (`queries.ts` lines 209-235): binds
a token; the `token.remove()` at line 236 lies outside the tag. -/
def liveQueryParametersSnippet : Snippet :=
  { file := "queries.ts", tag := "live-query-parameters",
    stmts :=
      [ { binds := ["query"], reads := ["database"],
          call := some { recv := "database", recvType := "Database",
                         method := "createQuery", awaited := false } },
        { reads := ["query"], objKeys := ["status", "minPriority"] },
        { binds := ["token"], reads := ["query"],
          call := some { recv := "query", recvType := "Query",
                         method := "addChangeListener", awaited := false } },
        { reads := ["query"], objKeys := ["status", "minPriority"] } ] }

/-- The `live-query-performance` snippet (`queries.ts` lines 394-421): binds
`token` and `batchToken`; their removals at lines 422-423 lie outside the
tag. -/
def liveQueryPerformanceSnippet : Snippet :=
  { file := "queries.ts", tag := "live-query-performance",
    stmts :=
      [ { binds := ["query"], reads := ["database"],
          call := some { recv := "database", recvType := "Database",
                         method := "createQuery", awaited := false } },
        { binds := ["updateTimeout"] },
        { binds := ["token"], reads := ["query"],
          call := some { recv := "query", recvType := "Query",
                         method := "addChangeListener", awaited := false } },
        { binds := ["isUpdating"] },
        { binds := ["batchToken"], reads := ["query"],
          call := some { recv := "query", recvType := "Query",
                         method := "addChangeListener", awaited := false } } ] }

/-- The `live-query-pagination` snippet (`queries.ts` lines 484-520): binds
a token; the `token.remove()` at line 521 lies outside the tag. -/
def liveQueryPaginationSnippet : Snippet :=
  { file := "queries.ts", tag := "live-query-pagination",
    stmts :=
      [ { binds := ["pageSize"] },
        { binds := ["currentPage"] },
        { binds := ["query"], reads := ["database"],
          call := some { recv := "database", recvType := "Database",
                         method := "createQuery", awaited := false } },
        { binds := ["updatePage"], reads := ["query", "pageSize"] },
        { binds := ["token"], reads := ["query"],
          call := some { recv := "query", recvType := "Query",
                         method := "addChangeListener", awaited := false } },
        { reads := ["updatePage"] },
        { binds := ["nextPage", "previousPage"],
          reads := ["updatePage", "currentPage"] } ] }

/-- The `live-query-filter` snippet (`queries.ts` lines 526-553): binds a
token; the `token.remove()` at line 554 lies outside the tag. -/
def liveQueryFilterSnippet : Snippet :=
  { file := "queries.ts", tag := "live-query-filter",
    stmts :=
      [ { binds := ["searchQuery"], reads := ["database"],
          call := some { recv := "database", recvType := "Database",
                         method := "createQuery", awaited := false } },
        { binds := ["token"], reads := ["searchQuery"],
          call := some { recv := "searchQuery", recvType := "Query",
                         method := "addChangeListener", awaited := false } },
        { binds := ["onSearchInput"], reads := ["searchQuery"] },
        { binds := ["searchInput"] },
        { reads := ["searchInput", "onSearchInput"] } ] }

/-- The `live-query-aggregate` snippet (`queries.ts` lines 560-583): binds a
token; the `token.remove()` at line 589 lies outside the tag. -/
def liveQueryAggregateSnippet : Snippet :=
  { file := "queries.ts", tag := "live-query-aggregate",
    stmts :=
      [ { binds := ["statsQuery"], reads := ["database"],
          call := some { recv := "database", recvType := "Database",
                         method := "createQuery", awaited := false } },
        { binds := ["token"], reads := ["statsQuery"],
          call := some { recv := "statsQuery", recvType := "Query",
                         method := "addChangeListener", awaited := false } } ] }

/-- The `multiple-listeners` snippet (`queries.ts` lines 57-80): three
tokens, each removed within the tag. -/
def multipleListenersSnippet : Snippet :=
  { file := "queries.ts", tag := "multiple-listeners",
    stmts :=
      [ { binds := ["query"], reads := ["database"],
          call := some { recv := "database", recvType := "Database",
                         method := "createQuery", awaited := false } },
        { binds := ["uiToken"], reads := ["query"],
          call := some { recv := "query", recvType := "Query",
                         method := "addChangeListener", awaited := false } },
        { binds := ["logToken"], reads := ["query"],
          call := some { recv := "query", recvType := "Query",
                         method := "addChangeListener", awaited := false } },
        { binds := ["analyticsToken"], reads := ["query"],
          call := some { recv := "query", recvType := "Query",
                         method := "addChangeListener", awaited := false } },
        { reads := ["uiToken"],
          call := some { recv := "uiToken", recvType := "ListenerToken",
                         method := "remove", awaited := false } },
        { reads := ["logToken"],
          call := some { recv := "logToken", recvType := "ListenerToken",
                         method := "remove", awaited := false } },
        { reads := ["analyticsToken"],
          call := some { recv := "analyticsToken", recvType := "ListenerToken",
                         method := "remove", awaited := false } } ] }

/-- The `live-query-lifecycle` snippet (`queries.ts` lines 141-203): the
`TaskManager` class's method bodies flattened in textual order, followed by
the in-tag usage; the listener registered in `start` is removed in `stop`,
both within the tag.  `manager.start()` etc. are calls of the repo-defined
class, not of the SDK, so no SDK call is recorded for them. -/
def liveQueryLifecycleSnippet : Snippet :=
  { file := "queries.ts", tag := "live-query-lifecycle",
    stmts :=
      [ { binds := ["database"], reads := ["Database"],
          call := some { recv := "Database", recvType := "Database",
                         method := "open", awaited := true } },
        { binds := ["query"], reads := ["database"],
          call := some { recv := "database", recvType := "Database",
                         method := "createQuery", awaited := false } },
        { reads := ["query"], objKeys := ["userId"] },
        { binds := ["listenerToken"], reads := ["query"],
          call := some { recv := "query", recvType := "Query",
                         method := "addChangeListener", awaited := false } },
        { reads := ["query"], objKeys := ["userId"] },
        { reads := ["listenerToken"],
          call := some { recv := "listenerToken", recvType := "ListenerToken",
                         method := "remove", awaited := false } },
        { binds := ["manager"] },
        { reads := ["manager"] },
        { reads := ["manager"] },
        { reads := ["manager"] } ] }

/-- The `live-query-react` snippet (`queries.ts` lines 243-286): the token
registered in the effect is removed by the in-tag cleanup closure. -/
def liveQueryReactSnippet : Snippet :=
  { file := "queries.ts", tag := "live-query-react",
    stmts :=
      [ { binds := ["query"], reads := ["database"],
          call := some { recv := "database", recvType := "Database",
                         method := "createQuery", awaited := false } },
        { reads := ["query"], objKeys := ["userId"] },
        { binds := ["token"], reads := ["query"],
          call := some { recv := "query", recvType := "Query",
                         method := "addChangeListener", awaited := false } },
        { reads := ["token"],
          call := some { recv := "token", recvType := "ListenerToken",
                         method := "remove", awaited := false } } ] }

/-- The `live-query-vue` snippet (`queries.ts` lines 292-344): `setupQuery`
removes any previous listener, registers a new one into `token`, and
`onUnmounted` removes it — all within the tag. -/
def liveQueryVueSnippet : Snippet :=
  { file := "queries.ts", tag := "live-query-vue",
    stmts :=
      [ { binds := ["results"] },
        { binds := ["token"] },
        { reads := ["token"],
          call := some { recv := "token", recvType := "ListenerToken",
                         method := "remove", awaited := false } },
        { binds := ["query"], reads := ["database"],
          call := some { recv := "database", recvType := "Database",
                         method := "createQuery", awaited := false } },
        { reads := ["query", "params"] },
        { binds := ["token"], reads := ["query"],
          call := some { recv := "query", recvType := "Query",
                         method := "addChangeListener", awaited := false } },
        { reads := ["token"],
          call := some { recv := "token", recvType := "ListenerToken",
                         method := "remove", awaited := false } } ] }

/-- The `live-query-angular` snippet (`queries.ts` lines 352-389): the
token registered in `ngOnInit` is removed in the in-tag `ngOnDestroy`. -/
def liveQueryAngularSnippet : Snippet :=
  { file := "queries.ts", tag := "live-query-angular",
    stmts :=
      [ { binds := ["tasks"] },
        { binds := ["listenerToken"] },
        { binds := ["query"], reads := ["database"],
          call := some { recv := "database", recvType := "Database",
                         method := "createQuery", awaited := false } },
        { binds := ["listenerToken"], reads := ["query"],
          call := some { recv := "query", recvType := "Query",
                         method := "addChangeListener", awaited := false } },
        { reads := ["listenerToken"],
          call := some { recv := "listenerToken", recvType := "ListenerToken",
                         method := "remove", awaited := false } } ] }

/-- The `live-query-conditional` snippet (`queries.ts` lines 428-479): the
token registered by `startListening` is removed by the in-tag
`stopListening`. -/
def liveQueryConditionalSnippet : Snippet :=
  { file := "queries.ts", tag := "live-query-conditional",
    stmts :=
      [ { binds := ["token"] },
        { binds := ["query"], reads := ["database"],
          call := some { recv := "database", recvType := "Database",
                         method := "createQuery", awaited := false } },
        { binds := ["token"], reads := ["query"],
          call := some { recv := "query", recvType := "Query",
                         method := "addChangeListener", awaited := false } },
        { reads := ["token"],
          call := some { recv := "token", recvType := "ListenerToken",
                         method := "remove", awaited := false } },
        { binds := ["manager"] },
        { reads := ["manager"] },
        { reads := ["manager"] } ] }

/-- The `live-query-cleanup` snippet (`queries.ts` lines 594-638): all three
tokens are pushed into the `tokens` array and removed by the in-tag
`cleanup` (`tokens.forEach(token => token.remove())`); the array name
stands for its tokens. -/
def liveQueryCleanupSnippet : Snippet :=
  { file := "queries.ts", tag := "live-query-cleanup",
    stmts :=
      [ { binds := ["tokens"] },
        { binds := ["query1"], reads := ["database"],
          call := some { recv := "database", recvType := "Database",
                         method := "createQuery", awaited := false } },
        { binds := ["tokens"], reads := ["query1", "tokens"],
          call := some { recv := "query1", recvType := "Query",
                         method := "addChangeListener", awaited := false } },
        { binds := ["query2"], reads := ["database"],
          call := some { recv := "database", recvType := "Database",
                         method := "createQuery", awaited := false } },
        { binds := ["tokens"], reads := ["query2", "tokens"],
          call := some { recv := "query2", recvType := "Query",
                         method := "addChangeListener", awaited := false } },
        { binds := ["query3"], reads := ["database"],
          call := some { recv := "database", recvType := "Database",
                         method := "createQuery", awaited := false } },
        { binds := ["tokens"], reads := ["query3", "tokens"],
          call := some { recv := "query3", recvType := "Query",
                         method := "addChangeListener", awaited := false } },
        { reads := ["tokens"],
          call := some { recv := "tokens", recvType := "ListenerToken",
                         method := "remove", awaited := false } },
        { binds := ["component"] },
        { reads := ["component"] } ] }

/-- The `document-listener` snippet (fifth copy of `code_snippets.js`,
lines 5132-5159; also `tojson` sources): registers a document change
listener and removes it within the tag. -/
def documentListenerSnippet : Snippet :=
  { file := "code_snippets.js (fifth copy)", tag := "document-listener",
    stmts :=
      [ { binds := ["tasks"], reads := ["database"],
          call := some { recv := "database", recvType := "Database",
                         method := "getCollection", awaited := false } },
        { binds := ["docId"], reads := ["DocID"] },
        { binds := ["token"], reads := ["tasks", "docId"],
          call := some { recv := "tasks", recvType := "Collection",
                         method := "addDocumentChangeListener", awaited := false } },
        { binds := ["doc"], reads := ["tasks", "docId"],
          call := some { recv := "tasks", recvType := "Collection",
                         method := "getDocument", awaited := true } },
        { reads := ["tasks", "doc"],
          call := some { recv := "tasks", recvType := "Collection",
                         method := "save", awaited := true } },
        { reads := ["token"],
          call := some { recv := "token", recvType := "ListenerToken",
                         method := "remove", awaited := false } } ] }

/-- The modelled corpus of tagged snippets. -/
def corpus : List Snippet :=
  [openDatabaseSnippet, openDatabaseEncryptedSnippet, closeDatabaseSnippet,
   createDocumentSnippet, getDocumentSnippet, createQuerySnippet,
   executeQuerySnippet, createLiveQuerySnippet, stopLiveQuerySnippet,
   createReplicatorSnippet, startReplicationSnippet, stopReplicationSnippet,
   stopReplicatorSnippet, collectionChangeListenerSnippet,
   documentChangeListenerSnippet, removeListenerSnippet,
   typescriptLiveQuerySnippet, blobInResultsSnippet,
   closeDatabaseUnawaitedSnippet, deleteDatabaseSnippet, addCollectionSnippet,
   modifyIndexesSnippet, indexMigrationSnippet, interruptQuerySnippet,
   liveQuerySnippet, liveQueryErrorsSnippet, liveQueryParametersSnippet,
   liveQueryPerformanceSnippet, liveQueryPaginationSnippet,
   liveQueryFilterSnippet, liveQueryAggregateSnippet,
   multipleListenersSnippet, liveQueryLifecycleSnippet, liveQueryReactSnippet,
   liveQueryVueSnippet, liveQueryAngularSnippet, liveQueryConditionalSnippet,
   liveQueryCleanupSnippet, documentListenerSnippet]

/-! ## Snippet execution semantics (for C2) -/

/-- Execute one statement over the set of defined variable names: reading an
undefined variable fails (a JS `ReferenceError`); otherwise the statement's
bindings are added. -/
def execStmt (env : List String) (s : SnippetStmt) : Option (List String) :=
  if s.reads.all (fun v => env.contains v) then some (s.binds ++ env) else none

/-- Run a snippet from an environment of defined variable names. -/
def runSnippet (s : Snippet) (env : List String) : Option (List String) :=
  s.stmts.foldlM execStmt env

/-- Whether a snippet runs without a reference error from `env`. -/
def runOk (s : Snippet) (env : List String) : Bool :=
  (runSnippet s env).isSome

/-- Snippet `s2` is independent of `s1` when running `s2` after `s1`
succeeds exactly when running `s2` without `s1` does, from any
environment. -/
def IndepPair (s1 s2 : Snippet) : Prop :=
  ∀ env env' : List String,
    runSnippet s1 env = some env' → runOk s2 env' = runOk s2 env

/-- All variables bound by a snippet. -/
def allBinds (s : Snippet) : List String :=
  (s.stmts.map SnippetStmt.binds).flatten

/-- All variables read by a snippet. -/
def allReads (s : Snippet) : List String :=
  (s.stmts.map SnippetStmt.reads).flatten

/-- C2 counterexample: the snippets are not pairwise independent — the
`execute-query` snippet succeeds after `create-query` from the environment
`["database"]` but fails without it, because it reads the `query` variable
bound by `create-query`. -/
theorem snippetIndependence_counterexample :
    ¬ (∀ s1 ∈ corpus, ∀ s2 ∈ corpus, s1 ≠ s2 → IndepPair s1 s2) := by
  intro h
  have h2 := h createQuerySnippet (by decide) executeQuerySnippet (by decide)
    (by decide) ["database"] ["query", "database"] (by decide)
  exact absurd h2 (by decide)

/-- C2 amended: snippets within a file share module scope and are not
pairwise independent: `execute-query` reads the `query` variable bound by
`create-query`, and `close-database` reads the `database` variable bound by
`open-database`, so each behaves differently with and without its
predecessor. -/
theorem snippetIndependence_amended :
    ¬ IndepPair createQuerySnippet executeQuerySnippet
    ∧ ¬ IndepPair openDatabaseSnippet closeDatabaseSnippet
    ∧ "query" ∈ allBinds createQuerySnippet
    ∧ "query" ∈ allReads executeQuerySnippet
    ∧ "database" ∈ allBinds openDatabaseSnippet
    ∧ "database" ∈ allReads closeDatabaseSnippet := by
  refine ⟨?_, ?_, by decide, by decide, by decide, by decide⟩
  · intro h
    have h2 := h ["database"] ["query", "database"] (by decide)
    exact absurd h2 (by decide)
  · intro h
    have h2 := h ["Database"] ["database", "config", "Database"] (by decide)
    exact absurd h2 (by decide)

/-! ## Listener registration and removal (for C5) -/

/-- The SDK calls made by a snippet. -/
def snippetCalls (s : Snippet) : List SdkCall :=
  (s.stmts.map (fun st => st.call.toList)).flatten

/-- For each listener registration in a snippet, the variable its token is
bound to (`none` when the token is discarded). -/
def listenerTokensBound (s : Snippet) : List (Option String) :=
  (s.stmts.map fun st =>
    match st.call with
    | some c =>
      if c.method == "addChangeListener" || c.method == "addDocumentChangeListener"
      then [st.binds.head?] else []
    | none => []).flatten

/-- Whether a snippet removes the listener whose token is bound to `tok`:
either `tok.remove()` or `removeChangeListener`/`removeDocumentChangeListener`
applied to `tok`. -/
def removesToken (s : Snippet) (tok : String) : Bool :=
  s.stmts.any fun st =>
    match st.call with
    | some c =>
      (c.method == "remove" && c.recv == tok)
        || ((c.method == "removeChangeListener"
              || c.method == "removeDocumentChangeListener")
            && st.reads.contains tok)
    | none => false

/-- Whether a registration's token (if it was bound at all) is removed
within the snippet. -/
def tokenRemoved (s : Snippet) : Option String → Bool
  | none => false
  | some tok => removesToken s tok

/-- A snippet removes all listeners it registers when every registration
binds its token to a variable on which a removal is performed within the
same snippet. -/
def RemovesAllListeners (s : Snippet) : Prop :=
  ∀ t ∈ listenerTokensBound s, tokenRemoved s t = true

instance (s : Snippet) : Decidable (RemovesAllListeners s) := by
  unfold RemovesAllListeners; infer_instance

/-- C5 counterexample: not every snippet removes the listeners it
registers — `typescript-live-query` binds a token it never removes,
`create-live-query` registers a listener without even keeping its token,
and `live-query`, `live-query-errors` and several parameter/performance/
pagination/filter/aggregate live-query snippets likewise leave theirs
registered at the end of their tag. -/
theorem listenerRemoval_counterexample :
    ¬ (∀ s ∈ corpus, RemovesAllListeners s) := by decide

/-- The tags whose snippets register change listeners they do not remove
within the tag: the demonstration-only registration snippets (several of
them perform the removal only after their tag closes, e.g. `live-query`'s
`token.remove()` at `queries.ts` line 36). -/
def leavesListenerTags : List String :=
  ["create-live-query", "live-query", "typescript-live-query",
   "live-query-errors", "live-query-parameters", "live-query-performance",
   "live-query-pagination", "live-query-filter", "live-query-aggregate"]

/-- C5 amended: a snippet removes every change listener it registers within
its own tag exactly when its tag is not one of the demonstration-only
registration tags (`create-live-query`, `live-query`,
`typescript-live-query`, `live-query-errors`, `live-query-parameters`,
`live-query-performance`, `live-query-pagination`, `live-query-filter`,
`live-query-aggregate`); each of those snippets leaves a listener
registered at the end of its tag. -/
theorem listenerRemoval_amended :
    (∀ s ∈ corpus, s.tag ∉ leavesListenerTags → RemovesAllListeners s)
    ∧ (∀ s ∈ corpus, s.tag ∈ leavesListenerTags → ¬ RemovesAllListeners s) := by
  decide

/-- Witness for `listenerRemoval_amended`: the `collection-change-listener`
snippet removes the listener it registers. -/
theorem listenerRemoval_amended_witness :
    RemovesAllListeners collectionChangeListenerSnippet :=
  listenerRemoval_amended.1 collectionChangeListenerSnippet (by decide)
    (by decide)

/-! ## Await discipline for asynchronous SDK calls (for C6) -/

/-- A method of an SDK receiver type is observed to be promise-returning
when some snippet of the corpus awaits a call of it. -/
def ObservedAsync (corp : List Snippet) (recvType method : String) : Prop :=
  ∃ s ∈ corp, ∃ c ∈ snippetCalls s,
    c.recvType = recvType ∧ c.method = method ∧ c.awaited = true

instance (corp : List Snippet) (rt m : String) :
    Decidable (ObservedAsync corp rt m) := by
  unfold ObservedAsync; infer_instance

/-- Every call a snippet makes of a method observed to be promise-returning
is awaited. -/
def AllAsyncAwaited (corp : List Snippet) (s : Snippet) : Prop :=
  ∀ c ∈ snippetCalls s, ObservedAsync corp c.recvType c.method → c.awaited = true

instance (corp : List Snippet) (s : Snippet) :
    Decidable (AllAsyncAwaited corp s) := by
  unfold AllAsyncAwaited; infer_instance

/-- The unawaited calls of promise-returning SDK methods, as
(tag, receiver type, method) triples: `replicator.stop()` in
`stop-replicator`; the unawaited `database.close()` in the second copy's
`close-database`, `delete-database` and `add-collection` snippets, in
`modify-indexes` and in `index-migration` (`currentDb.close()`); and
`interrupt-query`'s `execute`, whose promise is stored in `executePromise`
and awaited only after the interrupting timeout is set up. -/
def unawaitedExceptions : List (String × String × String) :=
  [("stop-replicator", "Replicator", "stop"),
   ("close-database", "Database", "close"),
   ("delete-database", "Database", "close"),
   ("add-collection", "Database", "close"),
   ("modify-indexes", "Database", "close"),
   ("index-migration", "Database", "close"),
   ("interrupt-query", "Query", "execute")]

/-- Whether a snippet calls a given method on a given SDK receiver type. -/
def callsMethod (s : Snippet) (rt m : String) : Bool :=
  (snippetCalls s).any fun c => c.recvType == rt && c.method == m

/-- Whether some statement of a snippet binds an object literal with the
given key. -/
def hasObjKey (s : Snippet) (k : String) : Bool :=
  s.stmts.any fun st => st.objKeys.contains k

/-- C7: for each topic — database open/close, CRUD, querying, live queries,
replication, blobs, encryption — some tagged snippet of the corpus calls
the external SDK's API for it; `blob-in-results` and
`open-database-encrypted` witness the blobs and encryption topics. -/
theorem topicCoverage :
    (∃ s ∈ corpus, callsMethod s "Database" "open" = true)
    ∧ (∃ s ∈ corpus, callsMethod s "Database" "close" = true)
    ∧ (∃ s ∈ corpus, callsMethod s "Collection" "save" = true)
    ∧ (∃ s ∈ corpus, callsMethod s "Collection" "getDocument" = true)
    ∧ (∃ s ∈ corpus, callsMethod s "Database" "createQuery" = true)
    ∧ (∃ s ∈ corpus, callsMethod s "Query" "execute" = true)
    ∧ (∃ s ∈ corpus, callsMethod s "Query" "addChangeListener" = true)
    ∧ (∃ s ∈ corpus, callsMethod s "Replicator" "constructor" = true)
    ∧ (∃ s ∈ corpus, callsMethod s "Replicator" "start" = true)
    ∧ (∃ s ∈ corpus, s.tag = "blob-in-results"
        ∧ callsMethod s "Blob" "getArrayBuffer" = true
        ∧ callsMethod s "Blob" "getURL" = true)
    ∧ (∃ s ∈ corpus, s.tag = "open-database-encrypted"
        ∧ callsMethod s "Database" "open" = true
        ∧ hasObjKey s "password" = true) := by
  decide

/-! ## The `TaskManager` class (`queries.ts` lines 142-192, for C8) -/

/-- The state of a live query held by `TaskManager`: its query string and
its `parameters` property. -/
structure LiveQueryState where
  sql : String
  params : List (String × String)
deriving DecidableEq

/-- A handle to an opened database (`Database.open` result). -/
structure DatabaseHandle where
  name : String
deriving DecidableEq

/-- The `TaskManager` class's private fields, all initialised to `null`. -/
structure TaskManager where
  query : Option LiveQueryState := none
  database : Option DatabaseHandle := none
  listenerToken : Option Unit := none
deriving DecidableEq

/-- The query string created by `TaskManager.start`. -/
def taskManagerQuerySQL : String :=
  "SELECT * FROM tasks WHERE assignedTo = $userId AND completed = false"

/-- `TaskManager.start`: opens the database, creates the query, sets its
parameters to the current user, registers the change listener and stores
its token. -/
def TaskManager.start (m : TaskManager) : TaskManager :=
  { m with
    database := some { name := "mydb" },
    query := some { sql := taskManagerQuerySQL,
                    params := [("userId", "current-user")] },
    listenerToken := some () }

/-- `TaskManager.stop`: if a listener token is held, removes the listener
and nulls the token; otherwise does nothing. -/
def TaskManager.stop (m : TaskManager) : TaskManager :=
  if m.listenerToken.isSome then { m with listenerToken := none } else m

/-- `TaskManager.updateParameters`: if the query exists, replaces its
parameters with the new user id. -/
def TaskManager.updateParameters (m : TaskManager) (userId : String) :
    TaskManager :=
  match m.query with
  | some q => { m with query := some { q with params := [("userId", userId)] } }
  | none => m

/-- The public operations of `TaskManager`. -/
inductive TMOp where
  | start
  | stop
  | updateParameters (userId : String)

/-- Apply one `TaskManager` operation. -/
def TaskManager.applyOp (m : TaskManager) : TMOp → TaskManager
  | .start => m.start
  | .stop => m.stop
  | .updateParameters u => m.updateParameters u

/-- A freshly constructed `TaskManager` (all fields `null`). -/
def initTaskManager : TaskManager := {}

/-- Run a sequence of operations on a fresh `TaskManager`. -/
def runTaskManager (ops : List TMOp) : TaskManager :=
  ops.foldl TaskManager.applyOp initTaskManager

/-- Spec-side lifecycle flag: whether a `start` has completed with no `stop`
since (`updateParameters` does not affect it). -/
def tokenStep (b : Bool) : TMOp → Bool
  | .start => true
  | .stop => false
  | .updateParameters _ => b

/-- Whether the last lifecycle operation in the trace is `start`. -/
def startedSinceLastStop (ops : List TMOp) : Bool :=
  ops.foldl tokenStep false

/-- Each operation moves the token's presence as the lifecycle flag does. -/
theorem TaskManager.applyOp_token (m : TaskManager) (op : TMOp) :
    (m.applyOp op).listenerToken.isSome = tokenStep m.listenerToken.isSome op := by
  cases op with
  | start => rfl
  | stop =>
    simp only [TaskManager.applyOp, TaskManager.stop, tokenStep]
    by_cases h : m.listenerToken.isSome <;> simp [h]
  | updateParameters u =>
    simp only [TaskManager.applyOp, TaskManager.updateParameters, tokenStep]
    cases m.query <;> rfl

/-- Token presence after a trace, from any starting state. -/
theorem TaskManager.foldl_token (ops : List TMOp) : ∀ m : TaskManager,
    (ops.foldl TaskManager.applyOp m).listenerToken.isSome =
      ops.foldl tokenStep m.listenerToken.isSome := by
  induction ops with
  | nil => intro m; rfl
  | cons op rest ih =>
    intro m
    simp only [List.foldl_cons, ih (m.applyOp op), TaskManager.applyOp_token]

/-- C8 counterexample: it is not the case that no type defined in the
repository carries a lifecycle of its own — `TaskManager.start` changes the
manager's observable state (it sets the listener token that a fresh manager
lacks). -/
theorem taskManagerLifecycle_counterexample :
    ¬ (∀ (m : TaskManager) (op : TMOp), m.applyOp op = m) := by
  intro h
  exact absurd (h initTaskManager .start) (by decide)

/-- C8 amended: the `TaskManager` class carries a lifecycle invariant of its
own: after any sequence of operations on a fresh manager, `listenerToken`
is non-null exactly when a completed `start` has occurred with no `stop`
since (and `stop` nulls the token after removing the listener). -/
theorem taskManagerLifecycle_amended (ops : List TMOp) :
    (runTaskManager ops).listenerToken.isSome = startedSinceLastStop ops :=
  TaskManager.foldl_token ops initTaskManager

/-! ## `updateTaskList` (`code_snippets.js` lines 562-574, for C10) -/

/-- The `tasks` field of a query result row, as read by `updateTaskList`. -/
structure TaskData where
  title : String
deriving DecidableEq

/-- One row of query results (`row.tasks`). -/
structure QueryRow where
  tasks : TaskData
deriving DecidableEq

/-- A DOM element: its id and the text contents of its child `li` nodes. -/
structure DomElement where
  id : String
  children : List String
deriving DecidableEq

/-- `document.getElementById`: the first element with the given id. -/
def getElementById (page : List DomElement) (i : String) : Option DomElement :=
  match page with
  | [] => none
  | e :: rest => if e.id = i then some e else getElementById rest i

/-- Mutate the first element with the given id (the one `getElementById`
returns), leaving the rest of the page unchanged. -/
def updateFirstElement (page : List DomElement) (i : String)
    (f : DomElement → DomElement) : List DomElement :=
  match page with
  | [] => []
  | e :: rest =>
    if e.id = i then f e :: rest else e :: updateFirstElement rest i f

/-- Set an element's children (`innerHTML = ''` is `elSetChildren []`). -/
def elSetChildren (cs : List String) (e : DomElement) : DomElement :=
  { e with children := cs }

/-- `appendChild` of an `li` whose `textContent` is `c`. -/
def elAppendChild (c : String) (e : DomElement) : DomElement :=
  { e with children := e.children ++ [c] }

/-- The `updateTaskList` helper (`code_snippets.js` lines 562-574):

```js
function updateTaskList(results) {
    const taskList = document.getElementById('task-list');
    if (taskList) {
        taskList.innerHTML = '';
        for (const row of results) {
            const task = row.tasks;
            const li = document.createElement('li');
            li.textContent = task.title;
            taskList.appendChild(li);
        }
    }
}
```
-/
def updateTaskList (results : List QueryRow) (page : List DomElement) :
    List DomElement :=
  match getElementById page "task-list" with
  | none => page
  | some _ =>
    let cleared := updateFirstElement page "task-list" (elSetChildren [])
    results.foldl
      (fun acc row =>
        updateFirstElement acc "task-list" (elAppendChild row.tasks.title))
      cleared

/-- Appending after setting children sets the extended children list. -/
theorem updateFirstElement_set_append (i : String) (c : String) :
    ∀ (page : List DomElement) (cs : List String),
      updateFirstElement (updateFirstElement page i (elSetChildren cs)) i
        (elAppendChild c) =
      updateFirstElement page i (elSetChildren (cs ++ [c])) := by
  intro page
  induction page with
  | nil => intro cs; rfl
  | cons e rest ih =>
    intro cs
    by_cases h : e.id = i
    · simp [updateFirstElement, elSetChildren, elAppendChild, h]
    · simp [updateFirstElement, h, ih]

/-- The append loop over results extends the children in order. -/
theorem updateTaskList_foldl (i : String) :
    ∀ (results : List QueryRow) (page : List DomElement) (cs : List String),
      results.foldl
        (fun acc row => updateFirstElement acc i (elAppendChild row.tasks.title))
        (updateFirstElement page i (elSetChildren cs)) =
      updateFirstElement page i
        (elSetChildren (cs ++ results.map fun r => r.tasks.title)) := by
  intro results
  induction results with
  | nil => intro page cs; simp
  | cons r rs ih =>
    intro page cs
    simp only [List.foldl_cons, updateFirstElement_set_append, ih,
      List.map_cons, List.append_assoc, List.singleton_append]

/-- Looking up a different id is unaffected by `updateFirstElement` with an
id-preserving mutation. -/
theorem getElementById_updateFirstElement_ne (i j : String) (cs : List String)
    (hne : j ≠ i) :
    ∀ page : List DomElement,
      getElementById (updateFirstElement page i (elSetChildren cs)) j =
        getElementById page j := by
  intro page
  induction page with
  | nil => rfl
  | cons e rest ih =>
    have hij : i ≠ j := fun hh => hne hh.symm
    by_cases h : e.id = i
    · simp [updateFirstElement, getElementById, elSetChildren, h, hij]
    · by_cases hj : e.id = j
      · simp [updateFirstElement, getElementById, h, hj, hne]
      · simp [updateFirstElement, getElementById, h, hj, ih]

/-- Looking up the mutated id yields the mutated element. -/
theorem getElementById_updateFirstElement_eq (i : String) (cs : List String) :
    ∀ page : List DomElement,
      getElementById (updateFirstElement page i (elSetChildren cs)) i =
        (getElementById page i).map (elSetChildren cs) := by
  intro page
  induction page with
  | nil => rfl
  | cons e rest ih =>
    by_cases h : e.id = i
    · simp [updateFirstElement, getElementById, elSetChildren, h]
    · simp [updateFirstElement, getElementById, h, ih]

/-- C10: `updateTaskList` leaves the page unchanged when no element with id
`task-list` exists; when one exists, it replaces exactly that element's
children with one entry per result row, in order, holding
`row.tasks.title`, and modifies nothing else on the page. -/
theorem updateTaskList_spec (results : List QueryRow) (page : List DomElement) :
    (getElementById page "task-list" = none → updateTaskList results page = page)
    ∧ (∀ e : DomElement, getElementById page "task-list" = some e →
        updateTaskList results page =
          updateFirstElement page "task-list"
            (elSetChildren (results.map fun r => r.tasks.title))
        ∧ getElementById (updateTaskList results page) "task-list" =
            some { e with children := results.map fun r => r.tasks.title }
        ∧ (∀ j : String, j ≠ "task-list" →
            getElementById (updateTaskList results page) j =
              getElementById page j)) := by
  constructor
  · intro h
    simp [updateTaskList, h]
  · intro e he
    have hmain : updateTaskList results page =
        updateFirstElement page "task-list"
          (elSetChildren (results.map fun r => r.tasks.title)) := by
      simp only [updateTaskList, he]
      simpa using updateTaskList_foldl "task-list" results page []
    refine ⟨hmain, ?_, ?_⟩
    · rw [hmain, getElementById_updateFirstElement_eq, he]
      rfl
    · intro j hj
      rw [hmain, getElementById_updateFirstElement_ne _ _ _ hj]

/-- Witness for `updateTaskList_spec`: on a page without a `task-list`
element the function is the identity; on a page with one, the element's
children become the result titles in order and the other element is
untouched. -/
theorem updateTaskList_spec_witness :
    updateTaskList [⟨⟨"Task A"⟩⟩, ⟨⟨"Task B"⟩⟩] [⟨"header", ["x"]⟩] =
      [⟨"header", ["x"]⟩]
    ∧ getElementById
        (updateTaskList [⟨⟨"Task A"⟩⟩, ⟨⟨"Task B"⟩⟩]
          [⟨"header", ["x"]⟩, ⟨"task-list", ["old"]⟩]) "task-list" =
        some ⟨"task-list", ["Task A", "Task B"]⟩
    ∧ getElementById
        (updateTaskList [⟨⟨"Task A"⟩⟩, ⟨⟨"Task B"⟩⟩]
          [⟨"header", ["x"]⟩, ⟨"task-list", ["old"]⟩]) "header" =
        some ⟨"header", ["x"]⟩ :=
  ⟨(updateTaskList_spec [⟨⟨"Task A"⟩⟩, ⟨⟨"Task B"⟩⟩] [⟨"header", ["x"]⟩]).1
      (by decide),
   ((updateTaskList_spec [⟨⟨"Task A"⟩⟩, ⟨⟨"Task B"⟩⟩]
        [⟨"header", ["x"]⟩, ⟨"task-list", ["old"]⟩]).2
      ⟨"task-list", ["old"]⟩ (by decide)).2.1,
   (((updateTaskList_spec [⟨⟨"Task A"⟩⟩, ⟨⟨"Task B"⟩⟩]
        [⟨"header", ["x"]⟩, ⟨"task-list", ["old"]⟩]).2
      ⟨"task-list", ["old"]⟩ (by decide)).2.2 "header" (by decide)).trans
     (by decide)⟩
